import Mathlib

/-!
Verification development for the asynchronous command dispatch engine of a
user-space SCSI block-storage daemon (sources: `libtcmu_aio.c`,
`libtcmu_store.c`).  The C code is shallowly embedded: pure control flow
becomes Lean functions, the mutable system state (in-flight tracker,
trace of externally visible events) is passed explicitly, and backend or
allocator behaviour that the core cannot observe is supplied by oracles.
-/

namespace Tcmu

/-! ## SCSI status values

The dispatch layer compares statuses against `SAM_STAT_GOOD`,
`TCMU_ASYNC_HANDLED` and `TCMU_NOT_HANDLED` and produces sense-carrying
`CHECK_CONDITION` statuses and `TASK_SET_FULL`; these are modelled as a
closed inductive, mirroring the distinct C constants. -/

/-- SCSI sense payload: sense key, additional sense code, information
field (the mismatch offset for MISCOMPARE). -/
structure Sense where
  key : Nat
  asc : Nat
  info : Int
deriving DecidableEq, Repr

inductive SamStat where
  | good
  | checkCondition (s : Sense)
  | taskSetFull
  | notHandled
  | asyncHandled
deriving DecidableEq, Repr

/-- sense key MISCOMPARE (0x0e). -/
def MISCOMPARE : Nat := 14

/-- ASC/ASCQ MISCOMPARE DURING VERIFY OPERATION (0x1d00). -/
def ASC_MISCOMPARE_DURING_VERIFY_OPERATION : Nat := 7424

/-- sense key MEDIUM ERROR (0x03), used by the `errno` mapping. -/
def MEDIUM_ERROR : Nat := 3

def ENOMEM : Int := 12
def Eio : Int := 5

/-- Modelled from the spec: `errno_to_sam_status` (helper not under the
given sources) maps a negative errno to a SCSI status: `-ENOMEM` to the
`TASK_SET_FULL` equivalent, other errors to a `MEDIUM_ERROR` sense
(spec sections 4.3 and 7). -/
def errno_to_sam_status (e : Int) : SamStat :=
  if e = -ENOMEM then .taskSetFull
  else .checkCondition { key := MEDIUM_ERROR, asc := 0, info := e }

/-- Modelled from the spec: `tcmu_set_sense_data` (helper not under the
given sources) fills the sense buffer and yields a `CHECK_CONDITION`
status carrying the given key, ASC and information bytes. -/
def tcmu_set_sense_data (key asc : Nat) (info : Int) : Sense :=
  { key := key, asc := asc, info := info }

/-! ## AIO tracker (`libtcmu_aio.c`)

`tracked_aio_ops` is a machine integer guarded by a spin lock; both the
decrement and the post-decrement zero test of
`tcmulib_track_aio_request_finish` happen inside one critical section, so
the pair is embedded as a single Lean function.  The C `assert` is
modelled by returning `none`. -/

structure TrackAio where
  tracked_aio_ops : Int
deriving DecidableEq, Repr

def tcmulib_track_aio_request_start (t : TrackAio) : TrackAio :=
  { tracked_aio_ops := t.tracked_aio_ops + 1 }

/-- `tcmulib_track_aio_request_finish`: asserts the counter is positive,
decrements it, and reports through `is_idle` whether the post-decrement
value is zero.  The decrement and the test are one step (one function
application), as in the source's single critical section. -/
def tcmulib_track_aio_request_finish (t : TrackAio) : Option (TrackAio × Bool) :=
  if 0 < t.tracked_aio_ops then
    some ({ tracked_aio_ops := t.tracked_aio_ops - 1 },
          decide (t.tracked_aio_ops - 1 = 0))
  else
    none

def setup_aio_tracking : TrackAio := { tracked_aio_ops := 0 }

/-- `cleanup_aio_tracking` asserts the counter is zero. -/
def cleanup_aio_tracking (t : TrackAio) : Option Unit :=
  if t.tracked_aio_ops = 0 then some () else none

/-- Tracker states reachable from `setup_aio_tracking` under the two
tracker operations. -/
inductive TrackReachable : TrackAio → Prop
  | setup : TrackReachable setup_aio_tracking
  | start {t : TrackAio} : TrackReachable t →
      TrackReachable (tcmulib_track_aio_request_start t)
  | finish {t t' : TrackAio} {b : Bool} : TrackReachable t →
      tcmulib_track_aio_request_finish t = some (t', b) → TrackReachable t'

/-! ## Commands, call stubs and the observable trace -/

/-- The completion callbacks recorded onto commands; one constructor per
callback function in `libtcmu_store.c`. -/
inductive CbkId where
  | storeReadCbk       -- call_store_read_cbk
  | storeWriteCbk      -- call_store_write_cbk (single-shot write and CAW write stage)
  | storeFlushCbk      -- call_store_flush_cbk
  | cawReadCbk         -- call_store_caw_read_cbk
  | wvReadCbk          -- call_store_write_verify_read_cbk
  | wvWriteCbk         -- call_store_write_verify_write_cbk
  | passthroughCbk     -- tcmu_call_command_passthrough_cbk
deriving DecidableEq, Repr

inductive StoreOp where
  | read | write | flush | handleCmd
deriving DecidableEq, Repr

/-- A `tcmulib_cmd` as the dispatch engine sees it: the residual length of
its scatter/gather list (`tcmu_iovec_length` of `cmd->iovec`), the iovec
count, the sense buffer, and the recorded completion callback. -/
structure Cmd where
  iovLen : Nat
  iov_cnt : Nat
  sense : Option Sense
  callout : Option CbkId
deriving DecidableEq, Repr

/-- A `tcmu_call_stub`: the tagged operation, its completion callback and
the read/write payload (total iovec length, iovec count, byte offset);
`rwLen`/`rwCnt`/`rwOff` are unused (zero) for FLUSH and HANDLE_CMD. -/
structure CallStub where
  sop : StoreOp
  callout_cbk : CbkId
  rwLen : Nat
  rwCnt : Nat
  rwOff : Int
deriving DecidableEq, Repr

/-- Externally visible events of a run, in order. -/
inductive Action where
  | commandComplete (rc : SamStat)      -- tcmulib_command_complete on the original command
  | processingComplete                  -- tcmulib_processing_complete
  | execBackend (op : StoreOp) (len : Nat) (off : Int)  -- direct backend entry call
  | enqueued (stub : CallStub)          -- work entry holding a copy of the stub queued
  | calloutInvoked (cbk : Option CbkId) (rc : SamStat)  -- cmd->callout_cbk invoked
  | allocIov (len : Nat)                -- alloc_and_assign_iovec succeeded
  | freeIov                             -- free_iovec on the sidecar read command
  | storeHandlerCalled                  -- call_store_handler entered
deriving DecidableEq, Repr

/-- Per-device system state threaded through the store layer: the
in-flight counter and the event trace. -/
structure Sys where
  tracker : Int
  trace : List Action
deriving DecidableEq, Repr

/-- `tcmu_command_start`: `tcmulib_track_aio_request_start`. -/
def tcmu_command_start (s : Sys) : Sys :=
  { s with tracker := s.tracker + 1 }

/-- `tcmu_command_finish(dev, cmd, rc, complete)`: decrement the tracker
(recording `wakeup` from the post-decrement zero test); if `complete`,
invoke the transport's `tcmulib_command_complete` and, if `wakeup`, nudge
`tcmulib_processing_complete`. -/
def tcmu_command_finish (s : Sys) (rc : SamStat) (complete : Bool) : Sys :=
  { tracker := s.tracker - 1,
    trace := s.trace ++
      (if complete then
        Action.commandComplete rc ::
          (if s.tracker - 1 = 0 then [Action.processingComplete] else [])
      else []) }

def completeCount (tr : List Action) : Nat :=
  tr.countP fun a => match a with | .commandComplete _ => true | _ => false

def procCount (tr : List Action) : Nat :=
  tr.countP fun a => match a with | .processingComplete => true | _ => false

def calloutCount (tr : List Action) : Nat :=
  tr.countP fun a => match a with | .calloutInvoked _ _ => true | _ => false

/-! ## Dispatcher (`libtcmu_aio.c`)

`async_call_command` is the single dispatch entry: it records the stub's
callback onto the command, then either executes the stub directly on the
caller's thread (backend with native async support) or copies the stub
into a work entry and enqueues it for the worker.  What the backend or
the allocator would do is supplied by an oracle. -/

/-- Oracle for one `async_call_command` call: whether the backend
declares native async support, the status its entry point would return on
the direct path, and whether the work-entry `malloc` succeeds on the
worker path. -/
structure AioOracle where
  aio_supported : Bool
  execRet : SamStat
  mallocOk : Bool
deriving DecidableEq, Repr

/-- Result of `async_call_command`: the updated command, the returned
status, and the externally visible actions it performed before
returning. -/
structure AccRes where
  cmd : Cmd
  ret : SamStat
  tr : List Action
deriving DecidableEq, Repr

/-- `call_stub_exec_async`: invoke the backend entry for the stub's
operation directly and return whatever it returns (oracle). -/
def call_stub_exec_async (stub : CallStub) (execRet : SamStat) : SamStat × List Action :=
  (execRet, [Action.execBackend stub.sop stub.rwLen stub.rwOff])

/-- `aio_schedule`: allocate a work entry (oracle decides whether
`malloc` succeeds), copy the stub into it, enqueue it, and return
`TCMU_ASYNC_HANDLED`; on allocation failure return
`errno_to_sam_status(-ENOMEM)`. -/
def aio_schedule (stub : CallStub) (mallocOk : Bool) : SamStat × List Action :=
  if mallocOk then (.asyncHandled, [Action.enqueued stub])
  else (errno_to_sam_status (-ENOMEM), [])

/-- `async_call_command(dev, cmd, stub)`. -/
def async_call_command (cmd : Cmd) (stub : CallStub) (o : AioOracle) : AccRes :=
  let cmd := { cmd with callout := some stub.callout_cbk }
  if o.aio_supported then
    let r := call_stub_exec_async stub o.execRet
    { cmd := cmd, ret := r.1, tr := r.2 }
  else
    let r := aio_schedule stub o.mallocOk
    { cmd := cmd, ret := r.1, tr := r.2 }

/-- The SCSI status `call_stub_exec_sync` derives from the backend's raw
return value (`ssize_t`): for READ/WRITE a return different from the
total requested iovec length is an I/O error; for FLUSH/HANDLE_CMD any
negative return is an I/O error; otherwise GOOD. -/
def sync_status (stub : CallStub) (backendRet : Int) : SamStat :=
  match stub.sop with
  | .read | .write =>
      if backendRet = (stub.rwLen : Int) then .good
      else errno_to_sam_status (-Eio)
  | .flush | .handleCmd =>
      if backendRet < 0 then errno_to_sam_status (-Eio) else .good

/-- `call_stub_exec_sync(dev, cmd, stub)`: run the backend entry on the
worker thread, map its return value to a SCSI status, and invoke the
command's recorded completion callback (`tcmulib_callout_finished`)
exactly once with that status. -/
def call_stub_exec_sync (cmd : Cmd) (stub : CallStub) (backendRet : Int) :
    SamStat × List Action :=
  (sync_status stub backendRet,
   [Action.execBackend stub.sop stub.rwLen stub.rwOff,
    Action.calloutInvoked cmd.callout (sync_status stub backendRet)])

/-! ## Memory-level model of `alloc_and_assign_iovec` / `free_iovec`

These two helpers of `libtcmu_store.c` manipulate raw pointers, so they
get a small heap model: addresses are naturals, `0` is NULL, the heap
maps live iovec descriptors to their contents and tracks live raw
buffers.  Each C statement becomes one step; asserting a false condition,
dereferencing NULL and touching a freed object are distinct faults. -/

abbrev Ptr := Nat

/-- A `struct iovec`. -/
structure IovObj where
  iov_base : Ptr
  iov_len : Nat
deriving DecidableEq, Repr

/-- The command fields these helpers touch. -/
structure MemCmd where
  iovec : Ptr
  iov_cnt : Nat
deriving DecidableEq, Repr

structure Heap where
  iovs : Ptr → Option IovObj
  bufs : Ptr → Bool

inductive CFault where
  | assertFail
  | nullDeref
  | useAfterFree
deriving DecidableEq, Repr

/-- `free_iovec(tcmulib_cmd)`, statement by statement:
`assert(cmd->iovec); assert(cmd->iovec->iov_base);
free(cmd->iovec->iov_base); free(cmd->iovec);
cmd->iov_cnt = 0; cmd->iovec = NULL; cmd->iovec->iov_base = NULL;` —
the final store dereferences `cmd->iovec` again after it was set to
NULL (and after its target was freed). -/
def free_iovec (h : Heap) (cmd : MemCmd) : Except CFault (Heap × MemCmd) :=
  if cmd.iovec = 0 then .error .assertFail
  else
    match h.iovs cmd.iovec with
    | none => .error .useAfterFree
    | some obj =>
      if obj.iov_base = 0 then .error .assertFail
      else
        let h := { h with
          bufs := fun p => if p = obj.iov_base then false else h.bufs p }
        let h := { h with
          iovs := fun p => if p = cmd.iovec then none else h.iovs p }
        let cmd := { cmd with iov_cnt := 0 }
        let cmd := { cmd with iovec := 0 }
        if cmd.iovec = 0 then .error .nullDeref
        else
          match h.iovs cmd.iovec with
          | none => .error .useAfterFree
          | some obj2 =>
            .ok ({ h with iovs := fun p =>
                    if p = cmd.iovec then some { obj2 with iov_base := 0 }
                    else h.iovs p },
                  cmd)

/-- `alloc_and_assign_iovec(tcmulib_cmd, length, iov_cnt)`, statement by
statement: `assert(!cmd->iovec);` then `assert(!cmd->iovec->iov_base);`
— the second assertion's condition dereferences `cmd->iovec`, which the
first assertion requires to be NULL.  The remainder of the function
(`calloc` the descriptor and buffer, assign them to the command) is
translated after the two asserts; `newIov`/`newBuf` are the addresses the
allocator would hand out (`0` for a failed `calloc`). -/
def alloc_and_assign_iovec (h : Heap) (cmd : MemCmd) (length iov_cnt : Nat)
    (newIov newBuf : Ptr) : Except CFault (Heap × MemCmd × Ptr) :=
  if ¬ cmd.iovec = 0 then .error .assertFail
  else
    match h.iovs cmd.iovec with
    | none => .error .nullDeref
    | some obj =>
      if ¬ obj.iov_base = 0 then .error .assertFail
      else if newIov = 0 then .ok (h, cmd, 0)
      else
        let h := { h with iovs := fun p =>
          if p = newIov then some { iov_base := 0, iov_len := 0 } else h.iovs p }
        if newBuf = 0 then
          .ok ({ h with iovs := fun p => if p = newIov then none else h.iovs p },
               cmd, 0)
        else
          let h := { h with bufs := fun p => if p = newBuf then true else h.bufs p }
          let h := { h with iovs := fun p =>
            (if p = newIov then some { iov_base := newBuf, iov_len := length }
             else h.iovs p) }
          .ok (h, { iovec := newIov, iov_cnt := iov_cnt }, newIov)

/-! ## The command state machines (`libtcmu_store.c`)

One accepted command's lifecycle through `call_store`.  The machine state
`MSt` holds the system state, the original command, the sidecar read
command's iovec (its residual length, `none` when absent or freed) and
the CAW / write-verify state blocks.  An `Oracle` supplies everything the
core cannot decide itself: each dispatch's outcome, each
`tcmu_compare_with_iovec` result, each allocation's success.  Completions
that arrive out-of-band (worker thread or native-async backend) are
returned as a `Pending` continuation and run by the `drive` loop, so the
caller's post-dispatch statements execute before the completion fires,
matching the program order of the dispatching function. -/

/-- `size_t` subtraction (modulo 2^64), for `state->remaining -=
state->requested`. -/
def sub64 (a b : Nat) : Nat := (a + 2 ^ 64 - b % 2 ^ 64) % 2 ^ 64

/-- CAW state block: `{off, requested, origcmd}` where `requested` is the
compare half (`ssize_t`). -/
structure CawState where
  off : Int
  requested : Nat
deriving DecidableEq, Repr

/-- Write-verify state block: `{off, remaining, requested, readcmd}`. -/
structure WvState where
  off : Int
  remaining : Nat
  requested : Nat
deriving DecidableEq, Repr

structure MSt where
  sys : Sys
  orig : Cmd
  rcIov : Option Nat
  caw : Option CawState
  wv : Option WvState
deriving DecidableEq, Repr

/-- Outcome of one `async_call_command` call, chosen by the oracle:
`direct execRet compl` is the native-async path (`call_stub_exec_async`
returns `execRet`; when that is `ASYNC_HANDLED` the backend later
completes out-of-band with status `compl`); `oom` is the worker path with
a failed work-entry allocation; `workq backendRet` is the worker path,
where the worker later runs `call_stub_exec_sync` with the backend
returning `backendRet`. -/
inductive DOutcome where
  | direct (execRet : SamStat) (compl : SamStat)
  | oom
  | workq (backendRet : Int)
deriving DecidableEq, Repr

structure Oracle where
  dispatches : List DOutcome
  compares : List Int
  allocs : List Bool
deriving DecidableEq, Repr

/-- A completion that will fire later: the recorded callback and the
status it will receive. -/
inductive Pending where
  | idle
  | cbk (c : CbkId) (s : SamStat)
deriving DecidableEq, Repr

/-- Number of command completions a pending continuation still owes. -/
def Pending.owed : Pending → Nat
  | .idle => 0
  | .cbk _ _ => 1

/-- Result of a function that dispatches and returns a status upward. -/
structure DispRes where
  st : MSt
  o : Oracle
  ret : SamStat
  p : Pending
deriving DecidableEq, Repr

/-- Result of a completion callback. -/
structure CbkRes where
  st : MSt
  o : Oracle
  p : Pending
deriving DecidableEq, Repr

def addTrace (st : MSt) (l : List Action) : MSt :=
  { st with sys := { st.sys with trace := st.sys.trace ++ l } }

/-- `tcmu_seek_in_iovec(iovec, count)`: consume `count` bytes from the
front of the scatter/gather list; the residual length drops by
`count`. -/
def seekIovec (c : Cmd) (n : Nat) : Cmd := { c with iovLen := c.iovLen - n }

def startM (st : MSt) : MSt := { st with sys := tcmu_command_start st.sys }

def finishM (st : MSt) (rc : SamStat) (complete : Bool) : MSt :=
  { st with sys := tcmu_command_finish st.sys rc complete }

/-- `async_call_command` inside a machine run: mirror of the dispatcher
(`call_stub_exec_async` on the direct path, `aio_schedule` on the worker
path) plus the out-of-band completion it gives rise to. -/
def dispatchM (st : MSt) (stub : CallStub) (o : Oracle) : DispRes :=
  match o.dispatches with
  | [] =>
      { st := st, o := o, ret := errno_to_sam_status (-ENOMEM), p := .idle }
  | d :: rest =>
    let o := { o with dispatches := rest }
    match d with
    | .direct execRet compl =>
        { st := addTrace st [Action.execBackend stub.sop stub.rwLen stub.rwOff],
          o := o, ret := execRet,
          p := if execRet = .asyncHandled then .cbk stub.callout_cbk compl
               else .idle }
    | .oom =>
        { st := st, o := o, ret := errno_to_sam_status (-ENOMEM), p := .idle }
    | .workq backendRet =>
        { st := addTrace st [Action.enqueued stub], o := o, ret := .asyncHandled,
          p := .cbk stub.callout_cbk (sync_status stub backendRet) }

/-- Consume one compare-oracle value (`tcmu_compare_with_iovec` result:
`-1` is the sentinel for equal buffers, otherwise the first mismatch
offset). -/
def nextCompare (o : Oracle) : Int × Oracle :=
  match o.compares with
  | [] => (-1, o)
  | c :: rest => (c, { o with compares := rest })

/-- Consume one allocation-oracle value. -/
def nextAlloc (o : Oracle) : Bool × Oracle :=
  match o.allocs with
  | [] => (false, o)
  | b :: rest => (b, { o with allocs := rest })

/-! ### Single-shot machines -/

/-- `call_store_read_cbk` / `call_store_write_cbk` /
`call_store_flush_cbk`: `tcmu_command_finish(dev, cmd, ret, true)`. -/
def call_store_single_cbk (st : MSt) (o : Oracle) (ret : SamStat) : CbkRes :=
  { st := finishM st ret true, o := o, p := .idle }

/-- `call_store_read`: start the tracker, build the READ stub over the
command's iovec, dispatch; on a non-`ASYNC_HANDLED` return, finish with
`complete=false`. -/
def call_store_read (st : MSt) (o : Oracle) (off : Int) : DispRes :=
  let stub : CallStub :=
    { sop := .read, callout_cbk := .storeReadCbk,
      rwLen := st.orig.iovLen, rwCnt := st.orig.iov_cnt, rwOff := off }
  let st := startM st
  let r := dispatchM st stub o
  if r.ret = .asyncHandled then r
  else { r with st := finishM r.st r.ret false }

/-- `call_store_write`. -/
def call_store_write (st : MSt) (o : Oracle) (off : Int) : DispRes :=
  let stub : CallStub :=
    { sop := .write, callout_cbk := .storeWriteCbk,
      rwLen := st.orig.iovLen, rwCnt := st.orig.iov_cnt, rwOff := off }
  let st := startM st
  let r := dispatchM st stub o
  if r.ret = .asyncHandled then r
  else { r with st := finishM r.st r.ret false }

/-- `call_store_flush`. -/
def call_store_flush (st : MSt) (o : Oracle) : DispRes :=
  let stub : CallStub :=
    { sop := .flush, callout_cbk := .storeFlushCbk,
      rwLen := 0, rwCnt := 0, rwOff := 0 }
  let st := startM st
  let r := dispatchM st stub o
  if r.ret = .asyncHandled then r
  else { r with st := finishM r.st r.ret false }

/-! ### Compare-and-write machine -/

/-- `caw_free_readcmd(readcmd)`: `free_iovec(readcmd)`, free the command,
free the state block. -/
def caw_free_readcmd (st : MSt) : MSt :=
  { addTrace st [Action.freeIov] with rcIov := none, caw := none }

/-- The `finish_err` label of `call_store_caw_read_cbk`: free the read
command, then finish the original command with `complete=true`. -/
def caw_finish_err (st : MSt) (o : Oracle) (rc : SamStat) : CbkRes :=
  { st := finishM (caw_free_readcmd st) rc true, o := o, p := .idle }

/-- `call_store_caw_read_cbk(dev, readcmd, ret)`.  Control flow of the
source: bail out on a failed read; compare the read-back buffer with the
original command's iovec over `state->requested` bytes and bail out with
MISCOMPARE sense when `cmp_offset == -1`; otherwise seek the original
iovec past `state->requested`, dispatch the WRITE stub
(`iov = origcmd->iovec`, `iov_cnt = origcmd->iov_cnt`,
`off = state->off`) with `call_store_write_cbk` as its completion, bail
out if the dispatch did not return `ASYNC_HANDLED`, and free the read
command.  (Note: `cmp_offset == -1` is the sentinel for *equal* buffers;
the memory fault inside `free_iovec` is modelled separately.) -/
def call_store_caw_read_cbk (st : MSt) (o : Oracle) (ret : SamStat) : CbkRes :=
  let cst := st.caw.getD { off := 0, requested := 0 }
  if ¬ ret = .good then caw_finish_err st o ret
  else
    let co := nextCompare o
    let o := co.2
    if co.1 = -1 then
      let sense := tcmu_set_sense_data MISCOMPARE
        ASC_MISCOMPARE_DURING_VERIFY_OPERATION co.1
      let st := { st with orig := { st.orig with sense := some sense } }
      caw_finish_err st o (.checkCondition sense)
    else
      let st := { st with orig := seekIovec st.orig cst.requested }
      let stub : CallStub :=
        { sop := .write, callout_cbk := .storeWriteCbk,
          rwLen := st.orig.iovLen, rwCnt := st.orig.iov_cnt, rwOff := cst.off }
      let r := dispatchM st stub o
      if ¬ r.ret = .asyncHandled then caw_finish_err r.st r.o r.ret
      else { st := caw_free_readcmd r.st, o := r.o, p := r.p }

/-- `call_store_caw(dev, store, tcmulib_cmd, iovec, iov_cnt, off)`:
`half` is half the total iovec length; `caw_init_readcmd` allocates the
state block, the read command and (through `alloc_and_assign_iovec`) its
iovec of size `half` with `iov_cnt = 1`; on allocation failure return the
`-ENOMEM` status.  Then start the tracker and dispatch the READ stub; if
that does not return `ASYNC_HANDLED`, finish with `complete=false` and
free the read command. -/
def call_store_caw (st : MSt) (o : Oracle) (off : Int) : DispRes :=
  let half : Nat := st.orig.iovLen / 2
  let ao := nextAlloc o
  let o := ao.2
  if ao.1 = false then
    { st := st, o := o, ret := errno_to_sam_status (-ENOMEM), p := .idle }
  else
    let st := { addTrace st [Action.allocIov half] with
      rcIov := some half, caw := some { off := off, requested := half } }
    let stub : CallStub :=
      { sop := .read, callout_cbk := .cawReadCbk,
        rwLen := half, rwCnt := 1, rwOff := off }
    let st := startM st
    let r := dispatchM st stub o
    if r.ret = .asyncHandled then r
    else
      let st := finishM r.st r.ret false
      { r with st := caw_free_readcmd st }

/-! ### Write-verify machine -/

/-- `write_verify_do_write(dev, writecmd, iovec, iov_cnt, off)`: build
the WRITE stub with `call_store_write_verify_write_cbk` as completion and
dispatch it. -/
def write_verify_do_write (st : MSt) (o : Oracle) (len cnt : Nat) (off : Int) :
    DispRes :=
  dispatchM st
    { sop := .write, callout_cbk := .wvWriteCbk,
      rwLen := len, rwCnt := cnt, rwOff := off } o

/-- `write_verify_do_read(dev, readcmd, off, length, iov_cnt)`: allocate
a fresh iovec of size `length` on the read command
(`alloc_and_assign_iovec`; on failure return the `-ENOMEM` status), build
the READ stub with `call_store_write_verify_read_cbk` as completion and
dispatch it; if the dispatch does not return `ASYNC_HANDLED`, free the
just-allocated iovec and return the status. -/
def write_verify_do_read (st : MSt) (o : Oracle) (off : Int) (length cnt : Nat) :
    DispRes :=
  let ao := nextAlloc o
  let o := ao.2
  if ao.1 = false then
    { st := st, o := o, ret := errno_to_sam_status (-ENOMEM), p := .idle }
  else
    let st := { addTrace st [Action.allocIov length] with rcIov := some length }
    let r := dispatchM st
      { sop := .read, callout_cbk := .wvReadCbk,
        rwLen := length, rwCnt := cnt, rwOff := off } o
    if r.ret = .asyncHandled then r
    else { r with st := { addTrace r.st [Action.freeIov] with rcIov := none } }

/-- The `finish` label of `call_store_write_verify_read_cbk`:
`tcmu_command_finish(dev, writecmd, ret, true)`, then `free_iovec(readcmd)`,
`write_verify_free_readcmd(readcmd)`, `write_verify_free_writecmd(writecmd)`. -/
def wv_read_finish (st : MSt) (o : Oracle) (rc : SamStat) : CbkRes :=
  let st := finishM st rc true
  { st := { addTrace st [Action.freeIov] with rcIov := none, wv := none },
    o := o, p := .idle }

/-- `call_store_write_verify_read_cbk(dev, readcmd, ret)`: bail out on a
failed read; compare the read-back buffer against the write command's
iovec over `state->requested` bytes, bailing out with MISCOMPARE sense
when `cmp_offset != -1`; on a match subtract `requested` from `remaining`
(`size_t` arithmetic) and finish with GOOD when it reaches zero;
otherwise seek the write command's iovec past `requested`, dispatch the
next WRITE batch (`write_verify_do_write` on the residual iovec at
`state->off`), bail out if that did not return `ASYNC_HANDLED`, and free
the read command's iovec (it is reallocated on every read). -/
def call_store_write_verify_read_cbk (st : MSt) (o : Oracle) (ret : SamStat) :
    CbkRes :=
  let wst := st.wv.getD { off := 0, remaining := 0, requested := 0 }
  if ¬ ret = .good then wv_read_finish st o ret
  else
    let co := nextCompare o
    let o := co.2
    if ¬ co.1 = -1 then
      let sense := tcmu_set_sense_data MISCOMPARE
        ASC_MISCOMPARE_DURING_VERIFY_OPERATION co.1
      let st := { st with orig := { st.orig with sense := some sense } }
      wv_read_finish st o (.checkCondition sense)
    else
      let wst := { wst with remaining := sub64 wst.remaining wst.requested }
      let st := { st with wv := some wst }
      if wst.remaining = 0 then wv_read_finish st o .good
      else
        let st := { st with orig := seekIovec st.orig wst.requested }
        let r := write_verify_do_write st o st.orig.iovLen st.orig.iov_cnt wst.off
        if ¬ r.ret = .asyncHandled then wv_read_finish r.st r.o r.ret
        else
          { st := { addTrace r.st [Action.freeIov] with rcIov := none },
            o := r.o, p := r.p }

/-- The `finish_err` label of `call_store_write_verify_write_cbk`:
`tcmu_command_finish(dev, writecmd, ret, true)`,
`write_verify_free_readcmd`, `write_verify_free_writecmd`. -/
def wv_write_finish_err (st : MSt) (o : Oracle) (rc : SamStat) : CbkRes :=
  { st := { finishM st rc true with wv := none }, o := o, p := .idle }

/-- `call_store_write_verify_write_cbk(dev, writecmd, ret)`: `length` is
the current residual length of the write command's iovec; bail out on a
failed write; record `state->requested = length` and issue the
verification read (`write_verify_do_read` at `state->off` for `length`
bytes with the write command's `iov_cnt`); bail out if that did not
return `ASYNC_HANDLED`. -/
def call_store_write_verify_write_cbk (st : MSt) (o : Oracle) (ret : SamStat) :
    CbkRes :=
  let wst := st.wv.getD { off := 0, remaining := 0, requested := 0 }
  let length := st.orig.iovLen
  if ¬ ret = .good then wv_write_finish_err st o ret
  else
    let wst := { wst with requested := length }
    let st := { st with wv := some wst }
    let r := write_verify_do_read st o wst.off length st.orig.iov_cnt
    if ¬ r.ret = .asyncHandled then wv_write_finish_err r.st r.o r.ret
    else { st := r.st, o := r.o, p := r.p }

/-- `call_store_write_verify(dev, tcmulib_cmd, off)`: `length` is the
CDB transfer length times the block size (a parameter here, CDB parsing
being outside the core); `write_verify_init_readcmd` and
`write_verify_init_writecmd` allocate the sidecar read command and the
state block `{off, remaining=length, requested=length, readcmd}` (one
allocation oracle covers both `calloc`s — every failure returns the
`-ENOMEM` status); then start the tracker and dispatch the first WRITE
over the original iovec; if that does not return `ASYNC_HANDLED`, finish
with `complete=false` and free the side structures. -/
def call_store_write_verify (st : MSt) (o : Oracle) (off : Int) (length : Nat) :
    DispRes :=
  let ao := nextAlloc o
  let o := ao.2
  if ao.1 = false then
    { st := st, o := o, ret := errno_to_sam_status (-ENOMEM), p := .idle }
  else
    let st := { st with
      wv := some { off := off, remaining := length, requested := length } }
    let st := startM st
    let r := write_verify_do_write st o st.orig.iovLen st.orig.iov_cnt off
    if r.ret = .asyncHandled then r
    else
      let st := finishM r.st r.ret false
      { r with st := { st with wv := none } }

/-! ### Router and passthrough -/

/-- SCSI opcode families recognised by `call_store_handler`. -/
inductive Opcode where
  | read6 | read10 | read12 | read16
  | write6 | write10 | write12 | write16
  | syncCache | syncCache16
  | compareAndWrite
  | writeVerify
  | unknown
deriving DecidableEq, Repr

/-- `call_store_handler(dev, store, tcmulib_cmd, cmd)`: route the opcode
to its machine; unknown opcodes return `TCMU_NOT_HANDLED`.  `off` is
`block_size * tcmu_get_lba(cdb)` and `xferLength` the write-verify
transfer length, both computed from the CDB outside the core. -/
def call_store_handler (st : MSt) (o : Oracle) (opc : Opcode) (off : Int)
    (xferLength : Nat) : DispRes :=
  let st := addTrace st [Action.storeHandlerCalled]
  match opc with
  | .read6 | .read10 | .read12 | .read16 => call_store_read st o off
  | .write6 | .write10 | .write12 | .write16 => call_store_write st o off
  | .syncCache | .syncCache16 => call_store_flush st o
  | .compareAndWrite => call_store_caw st o off
  | .writeVerify => call_store_write_verify st o off xferLength
  | .unknown => { st := st, o := o, ret := .notHandled, p := .idle }

/-- `tcmu_call_command_passthrough_cbk(dev, tcmulib_cmd, ret)`: when the
backend handled the command (`ret != TCMU_NOT_HANDLED`), finish it with
`complete=true`; otherwise fall back to `call_store_handler` and finish
with `complete = (ret != TCMU_ASYNC_HANDLED)`. -/
def tcmu_call_command_passthrough_cbk (st : MSt) (o : Oracle) (ret : SamStat)
    (opc : Opcode) (off : Int) (xferLength : Nat) : CbkRes :=
  if ¬ ret = .notHandled then
    { st := finishM st ret true, o := o, p := .idle }
  else
    let r := call_store_handler st o opc off xferLength
    { st := finishM r.st r.ret (if r.ret = .asyncHandled then false else true),
      o := r.o, p := r.p }

/-- `tcmu_command_passthrough(dev, store, tcmulib_cmd)`: start the
tracker and dispatch the HANDLE_CMD stub with
`tcmu_call_command_passthrough_cbk` as completion; on a
non-`ASYNC_HANDLED` return, finish with `complete=false`. -/
def tcmu_command_passthrough (st : MSt) (o : Oracle) : DispRes :=
  let stub : CallStub :=
    { sop := .handleCmd, callout_cbk := .passthroughCbk,
      rwLen := 0, rwCnt := 0, rwOff := 0 }
  let st := startM st
  let r := dispatchM st stub o
  if r.ret = .asyncHandled then r
  else { r with st := finishM r.st r.ret false }

/-- `call_store(dev, tcmulib_cmd, cmd)`: when the backend exports
`handle_cmd`, try the passthrough first and return its status unless it
is `TCMU_NOT_HANDLED` (the source's test is
`ret == TCMU_ASYNC_HANDLED || ret != TCMU_NOT_HANDLED`); otherwise route
through `call_store_handler`. -/
def call_store (st : MSt) (o : Oracle) (hasHandleCmd : Bool) (opc : Opcode)
    (off : Int) (xferLength : Nat) : DispRes :=
  if hasHandleCmd then
    let r := tcmu_command_passthrough st o
    if r.ret = .asyncHandled ∨ ¬ r.ret = .notHandled then r
    else call_store_handler r.st r.o opc off xferLength
  else call_store_handler st o opc off xferLength

/-! ### Driving pending completions -/

/-- Run the completion callback recorded for `c` with status `s`;
mirrors `tcmulib_callout_finished`'s jump through `cmd->callout_cbk`. -/
def runCallout (c : CbkId) (s : SamStat) (st : MSt) (o : Oracle) (opc : Opcode)
    (off : Int) (xferLength : Nat) : CbkRes :=
  match c with
  | .storeReadCbk | .storeWriteCbk | .storeFlushCbk => call_store_single_cbk st o s
  | .cawReadCbk => call_store_caw_read_cbk st o s
  | .wvReadCbk => call_store_write_verify_read_cbk st o s
  | .wvWriteCbk => call_store_write_verify_write_cbk st o s
  | .passthroughCbk => tcmu_call_command_passthrough_cbk st o s opc off xferLength

/-- Fire pending out-of-band completions until the machine rests; `fuel`
bounds the number of completion callbacks (the write-verify machine can
in principle loop). -/
def drive (opc : Opcode) (off : Int) (xferLength : Nat) :
    Nat → MSt → Oracle → Pending → Option (MSt × Oracle)
  | _, st, o, .idle => some (st, o)
  | 0, _, _, .cbk _ _ => none
  | fuel + 1, st, o, .cbk c s =>
      let r := runCallout c s st o opc off xferLength
      drive opc off xferLength fuel r.st r.o r.p

/-- One accepted command end to end: `call_store`, then every
out-of-band completion it gives rise to.  `none` means the fuel ran out
before the machine rested. -/
def run_call_store (fuel : Nat) (st : MSt) (o : Oracle) (hasHandleCmd : Bool)
    (opc : Opcode) (off : Int) (xferLength : Nat) :
    Option (MSt × Oracle × SamStat) :=
  let r := call_store st o hasHandleCmd opc off xferLength
  match drive opc off xferLength fuel r.st r.o r.p with
  | none => none
  | some (st, o) => some (st, o, r.ret)

/-! ### Concrete fixtures (used by witnesses and counterexamples) -/

/-- A freshly accepted command: 1024 bytes of scatter/gather in two
segments. -/
def exOrig : Cmd := { iovLen := 1024, iov_cnt := 2, sense := none, callout := none }

def exSt : MSt :=
  { sys := { tracker := 0, trace := [] }, orig := exOrig,
    rcIov := none, caw := none, wv := none }

/-- The machine state in the middle of a CAW command, right before the
READ completion fires: the sidecar read command owns a 512-byte iovec and
the state block records `off = 0`, `requested = 512`. -/
def exCawSt : MSt :=
  { sys := { tracker := 1, trace := [] }, orig := exOrig,
    rcIov := some 512, caw := some { off := 0, requested := 512 }, wv := none }

/-- The machine state in the middle of a write-verify command, right
before a READ-back completion fires. -/
def exWvSt : MSt :=
  { sys := { tracker := 1, trace := [] }, orig := exOrig,
    rcIov := some 1024, caw := none,
    wv := some { off := 8192, remaining := 1024, requested := 1024 } }

/-- Oracle for a plain READ on a worker-pool backend that returns the
full 1024 bytes. -/
def exO : Oracle := { dispatches := [.workq 1024], compares := [], allocs := [] }

/-- The outcome of that READ lifecycle. -/
def exRunOut : MSt × Oracle × SamStat :=
  (run_call_store 3 exSt exO false .read10 0 0).getD (exSt, exO, .good)

/-- An example heap: the iovec descriptor at address 1 holds the buffer
at address 2. -/
def exHeap : Heap :=
  { iovs := fun p => if p = 1 then some { iov_base := 2, iov_len := 512 } else none,
    bufs := fun p => p = 2 }

end Tcmu

namespace Tcmu

/-! ## Helper lemmas -/

theorem completeCount_append (a b : List Action) :
    completeCount (a ++ b) = completeCount a + completeCount b :=
  List.countP_append _ _ _

theorem procCount_append (a b : List Action) :
    procCount (a ++ b) = procCount a + procCount b :=
  List.countP_append _ _ _

theorem completeCount_finish (s : Sys) (rc : SamStat) (c : Bool) :
    completeCount (tcmu_command_finish s rc c).trace =
      completeCount s.trace + (if c then 1 else 0) := by
  unfold tcmu_command_finish completeCount
  cases c <;> by_cases h : s.tracker - 1 = 0 <;>
    simp [h, List.countP_append, List.countP_cons, List.countP_nil]

theorem procCount_finish (s : Sys) (rc : SamStat) (c : Bool) :
    procCount (tcmu_command_finish s rc c).trace =
      procCount s.trace + (if c = true ∧ s.tracker - 1 = 0 then 1 else 0) := by
  unfold tcmu_command_finish procCount
  cases c <;> by_cases h : s.tracker - 1 = 0 <;>
    simp [h, List.countP_append, List.countP_cons, List.countP_nil]

/-- `t` continues `s`: the trace only ever grows. -/
def TraceExt (s t : MSt) : Prop := ∃ tl, t.sys.trace = s.sys.trace ++ tl

theorem TraceExt.refl (s : MSt) : TraceExt s s := ⟨[], by simp⟩

theorem TraceExt.trans {a b c : MSt} (h1 : TraceExt a b) (h2 : TraceExt b c) :
    TraceExt a c := by
  obtain ⟨t1, e1⟩ := h1
  obtain ⟨t2, e2⟩ := h2
  exact ⟨t1 ++ t2, by rw [e2, e1, List.append_assoc]⟩

theorem TraceExt.mem {s t : MSt} (h : TraceExt s t) {x : Action}
    (hx : x ∈ s.sys.trace) : x ∈ t.sys.trace := by
  obtain ⟨tl, e⟩ := h
  rw [e]
  exact List.mem_append_left _ hx

/-- Transport along a record update that leaves the trace unchanged. -/
theorem TraceExt.cast {a b : MSt} (h : TraceExt a b) (c : MSt)
    (e : c.sys.trace = b.sys.trace) : TraceExt a c := by
  obtain ⟨tl, ht⟩ := h
  exact ⟨tl, by rw [e, ht]⟩

theorem traceExt_addTrace (st : MSt) (l : List Action) :
    TraceExt st (addTrace st l) := ⟨l, rfl⟩

theorem mem_addTrace (st : MSt) {l : List Action} {x : Action} (hx : x ∈ l) :
    x ∈ (addTrace st l).sys.trace := List.mem_append_right _ hx

theorem traceExt_startM (st : MSt) : TraceExt st (startM st) :=
  ⟨[], (List.append_nil _).symm⟩

theorem traceExt_finishM (st : MSt) (rc : SamStat) (c : Bool) :
    TraceExt st (finishM st rc c) := ⟨_, rfl⟩

theorem traceExt_dispatchM (st : MSt) (stub : CallStub) (o : Oracle) :
    TraceExt st (dispatchM st stub o).st := by
  unfold dispatchM
  cases hd : o.dispatches with
  | nil => exact TraceExt.refl st
  | cons d rest =>
      cases d with
      | direct r c => exact traceExt_addTrace st _
      | oom => exact TraceExt.refl st
      | workq b => exact traceExt_addTrace st _

theorem traceExt_caw_free (st : MSt) : TraceExt st (caw_free_readcmd st) :=
  traceExt_addTrace st _

theorem mem_freeIov_caw_free (st : MSt) :
    Action.freeIov ∈ (caw_free_readcmd st).sys.trace :=
  mem_addTrace st (by simp)

theorem mem_freeIov_caw_finish_err (st : MSt) (o : Oracle) (rc : SamStat) :
    Action.freeIov ∈ (caw_finish_err st o rc).st.sys.trace :=
  (traceExt_finishM (caw_free_readcmd st) rc true).mem (mem_freeIov_caw_free st)

theorem mem_freeIov_wv_read_finish (st : MSt) (o : Oracle) (rc : SamStat) :
    Action.freeIov ∈ (wv_read_finish st o rc).st.sys.trace :=
  mem_addTrace (finishM st rc true) (by simp)

/-! ## Claim C5 — the AIO tracker contract -/

/-- C5: `tcmulib_track_aio_request_start` increments the per-device
counter; `tcmulib_track_aio_request_finish` asserts the counter is
strictly positive, decrements it and reports as `is_idle` the
post-decrement zero test, computed together with the decrement in one
step; `setup_aio_tracking` zeroes the counter and `cleanup_aio_tracking`
asserts it is zero; and every state reachable from setup under the two
operations has a non-negative counter. -/
theorem C5_aio_tracker (t : TrackAio) :
    (tcmulib_track_aio_request_start t).tracked_aio_ops = t.tracked_aio_ops + 1
  ∧ (0 < t.tracked_aio_ops →
      tcmulib_track_aio_request_finish t =
        some ({ tracked_aio_ops := t.tracked_aio_ops - 1 },
              decide (t.tracked_aio_ops - 1 = 0)))
  ∧ (t.tracked_aio_ops ≤ 0 → tcmulib_track_aio_request_finish t = none)
  ∧ setup_aio_tracking.tracked_aio_ops = 0
  ∧ (cleanup_aio_tracking t = some () ↔ t.tracked_aio_ops = 0)
  ∧ (TrackReachable t → 0 ≤ t.tracked_aio_ops) := by
  refine ⟨rfl, ?_, ?_, rfl, ?_, ?_⟩
  · intro h
    simp [tcmulib_track_aio_request_finish, h]
  · intro h
    simp [tcmulib_track_aio_request_finish]
    omega
  · constructor
    · intro h
      by_contra hne
      simp [cleanup_aio_tracking, hne] at h
    · intro h
      simp [cleanup_aio_tracking, h]
  · intro h
    induction h with
    | setup => simp [setup_aio_tracking]
    | start _ ih => simp [tcmulib_track_aio_request_start]; omega
    | @finish u u' b _ hf ih =>
        unfold tcmulib_track_aio_request_finish at hf
        by_cases hp : 0 < u.tracked_aio_ops
        · rw [if_pos hp] at hf
          have hq := Option.some.inj hf
          have h1 : u.tracked_aio_ops - 1 = u'.tracked_aio_ops := by
            have := congrArg (fun q => q.1.tracked_aio_ops) hq
            simpa using this
          omega
        · rw [if_neg hp] at hf
          exact absurd hf (by simp)

theorem C5_aio_tracker_witness :
    tcmulib_track_aio_request_finish { tracked_aio_ops := 1 } =
      some ({ tracked_aio_ops := 0 }, true) := by
  have h := (C5_aio_tracker { tracked_aio_ops := 1 }).2.1 (by decide)
  simpa using h

/-! ## Claim C6 — the unified finisher -/

/-- C6 counterexample: a finish call with `complete = false` whose
decrement takes the in-flight counter to zero makes no
`processing_complete` nudge, refuting "is called at least once after
every transition to zero in-flight" as a property of
`tcmu_command_finish`. -/
theorem C6_counterexample :
    (tcmu_command_finish { tracker := 1, trace := [] } .good false).tracker = 0
  ∧ procCount (tcmu_command_finish { tracker := 1, trace := [] } .good false).trace
      = 0 := by decide

/-- C6 (amended): `tcmu_command_finish` always decrements the tracker;
it invokes `command_complete` exactly when `complete` is true; and it
nudges `processing_complete` exactly when `complete` is true *and* its
decrement took the counter to zero — in particular never while the
post-decrement count is positive, and never on a `complete = false`
call even when that call's decrement reaches zero. -/
theorem C6_finisher (s : Sys) (rc : SamStat) (complete : Bool) :
    (tcmu_command_finish s rc complete).tracker = s.tracker - 1
  ∧ completeCount (tcmu_command_finish s rc complete).trace =
      completeCount s.trace + (if complete then 1 else 0)
  ∧ procCount (tcmu_command_finish s rc complete).trace =
      procCount s.trace + (if complete = true ∧ s.tracker - 1 = 0 then 1 else 0) :=
  ⟨rfl, completeCount_finish s rc complete, procCount_finish s rc complete⟩

/-! ## Claim C3 — the dispatcher -/

/-- C3: `async_call_command` records the stub's completion callback onto
the command; with native async support it executes the stub directly and
returns the backend's status; otherwise it enqueues a work entry holding
a copy of the stub and returns `ASYNC_HANDLED`, or returns the SCSI
status derived from `-ENOMEM` (the `TASK_SET_FULL` equivalent) when the
work-entry allocation fails; and it never invokes a completion callback
before returning. -/
theorem C3_dispatch (cmd : Cmd) (stub : CallStub) (o : AioOracle) :
    (async_call_command cmd stub o).cmd.callout = some stub.callout_cbk
  ∧ (o.aio_supported = true → (async_call_command cmd stub o).ret = o.execRet)
  ∧ (o.aio_supported = false → o.mallocOk = true →
      (async_call_command cmd stub o).ret = .asyncHandled ∧
      Action.enqueued stub ∈ (async_call_command cmd stub o).tr)
  ∧ (o.aio_supported = false → o.mallocOk = false →
      (async_call_command cmd stub o).ret = errno_to_sam_status (-ENOMEM) ∧
      (async_call_command cmd stub o).ret = .taskSetFull)
  ∧ calloutCount (async_call_command cmd stub o).tr = 0
  ∧ completeCount (async_call_command cmd stub o).tr = 0 := by
  obtain ⟨sup, er, mo⟩ := o
  cases sup <;> cases mo <;>
    simp [async_call_command, call_stub_exec_async, aio_schedule,
      errno_to_sam_status, ENOMEM, calloutCount, completeCount,
      List.countP_cons, List.countP_nil]

theorem C3_dispatch_witness :
    (async_call_command exOrig
        { sop := .read, callout_cbk := .storeReadCbk,
          rwLen := 1024, rwCnt := 2, rwOff := 0 }
        { aio_supported := false, execRet := .good, mallocOk := true }).ret =
      SamStat.asyncHandled := by
  exact (C3_dispatch exOrig
    { sop := .read, callout_cbk := .storeReadCbk,
      rwLen := 1024, rwCnt := 2, rwOff := 0 }
    { aio_supported := false, execRet := .good, mallocOk := true }).2.2.1
    rfl rfl |>.1

/-! ## Claim C4 — synchronous stub execution on the worker -/

/-- C4: `call_stub_exec_sync` maps the backend return value to a SCSI
status — for READ/WRITE a return different from the total requested
iovec length yields an I/O-error sense, for FLUSH/HANDLE_CMD any
negative return yields an I/O-error sense, and in every other case the
status is GOOD — and invokes the command's recorded completion callback
exactly once with that status. -/
theorem C4_exec_sync (cmd : Cmd) (stub : CallStub) (b : Int) :
    ((stub.sop = .read ∨ stub.sop = .write) →
      (call_stub_exec_sync cmd stub b).1 =
        (if b = (stub.rwLen : Int) then .good else errno_to_sam_status (-Eio)))
  ∧ ((stub.sop = .flush ∨ stub.sop = .handleCmd) →
      (call_stub_exec_sync cmd stub b).1 =
        (if b < 0 then errno_to_sam_status (-Eio) else .good))
  ∧ calloutCount (call_stub_exec_sync cmd stub b).2 = 1
  ∧ Action.calloutInvoked cmd.callout (call_stub_exec_sync cmd stub b).1 ∈
      (call_stub_exec_sync cmd stub b).2 := by
  refine ⟨?_, ?_, ?_, ?_⟩ <;>
    rcases stub with ⟨sop, cbk, len, cnt, off⟩ <;> cases sop <;>
      simp [call_stub_exec_sync, sync_status, calloutCount,
        List.countP_cons, List.countP_nil]

theorem C4_exec_sync_witness :
    (call_stub_exec_sync exOrig
        { sop := .write, callout_cbk := .storeWriteCbk,
          rwLen := 1024, rwCnt := 2, rwOff := 0 } 512).1 =
      errno_to_sam_status (-Eio) := by
  have h := (C4_exec_sync exOrig
    { sop := .write, callout_cbk := .storeWriteCbk,
      rwLen := 1024, rwCnt := 2, rwOff := 0 } 512).1 (Or.inr rfl)
  simpa using h

/-! ## Claim C9 — the `free_iovec` tail store -/

/-- C9: on every call of `free_iovec` that passes its two entry
assertions, the final statement `tcmulib_cmd->iovec->iov_base = NULL`
stores through the command's iovec field after the descriptor it pointed
to was freed and the field itself was set to NULL, so every such call
faults with a null-pointer dereference; and this sequence runs on every
terminal path of the CAW machine (`caw_free_readcmd` is called on every
exit of the CAW read completion) and on every write-verify read batch
(every exit of the write-verify read completion frees the read command's
iovec). -/
theorem C9_free_iovec (h : Heap) (cmd : MemCmd) (obj : IovObj)
    (h1 : ¬ cmd.iovec = 0) (h2 : h.iovs cmd.iovec = some obj)
    (h3 : ¬ obj.iov_base = 0) :
    free_iovec h cmd = .error .nullDeref
  ∧ (∀ (st : MSt) (o : Oracle) (s : SamStat),
      Action.freeIov ∈ (call_store_caw_read_cbk st o s).st.sys.trace)
  ∧ (∀ (st : MSt) (o : Oracle) (s : SamStat),
      Action.freeIov ∈ (call_store_write_verify_read_cbk st o s).st.sys.trace) := by
  refine ⟨?_, ?_, ?_⟩
  · unfold free_iovec
    simp [h1, h2, h3]
  · intro st o s
    unfold call_store_caw_read_cbk
    dsimp only
    split
    · exact mem_freeIov_caw_finish_err _ _ _
    · split
      · exact mem_freeIov_caw_finish_err _ _ _
      · split
        · exact mem_freeIov_caw_finish_err _ _ _
        · exact mem_freeIov_caw_free _
  · intro st o s
    unfold call_store_write_verify_read_cbk
    dsimp only
    split
    · exact mem_freeIov_wv_read_finish _ _ _
    · split
      · exact mem_freeIov_wv_read_finish _ _ _
      · split
        · exact mem_freeIov_wv_read_finish _ _ _
        · split
          · exact mem_freeIov_wv_read_finish _ _ _
          · exact mem_addTrace _ (by simp)

theorem C9_free_iovec_witness :
    free_iovec exHeap { iovec := 1, iov_cnt := 1 } = .error .nullDeref := by
  exact (C9_free_iovec exHeap { iovec := 1, iov_cnt := 1 }
    { iov_base := 2, iov_len := 512 } (by decide) rfl (by decide)).1

/-! ## Claim C10 — the `alloc_and_assign_iovec` entry assertions -/

/-- C10: `alloc_and_assign_iovec` first asserts `!tcmulib_cmd->iovec`
and then evaluates `!tcmulib_cmd->iovec->iov_base`, dereferencing the
field the first assertion required to be NULL: when the field is NULL
the second assertion's evaluation is a null-pointer dereference, when it
is non-NULL the first assertion fails, so no call ever passes the entry
assertions; and both every CAW start (`caw_init_readcmd`) and every
write-verify read batch (`write_verify_do_read`) reach this function to
allocate the sidecar iovec. -/
theorem C10_alloc_and_assign (h : Heap) (cmd : MemCmd) (length iov_cnt : Nat)
    (newIov newBuf : Ptr) (h0 : h.iovs 0 = none) :
    (cmd.iovec = 0 →
      alloc_and_assign_iovec h cmd length iov_cnt newIov newBuf =
        .error .nullDeref)
  ∧ (¬ cmd.iovec = 0 →
      alloc_and_assign_iovec h cmd length iov_cnt newIov newBuf =
        .error .assertFail)
  ∧ (∀ r, ¬ alloc_and_assign_iovec h cmd length iov_cnt newIov newBuf = .ok r)
  ∧ (∀ (st : MSt) (o : Oracle) (off : Int) (bs : List Bool),
      o.allocs = true :: bs →
      Action.allocIov (st.orig.iovLen / 2) ∈
        (call_store_caw st o off).st.sys.trace)
  ∧ (∀ (st : MSt) (o : Oracle) (off : Int) (len cnt : Nat) (bs : List Bool),
      o.allocs = true :: bs →
      Action.allocIov len ∈
        (write_verify_do_read st o off len cnt).st.sys.trace) := by
  have hcore : ∀ hcv : cmd.iovec = 0,
      alloc_and_assign_iovec h cmd length iov_cnt newIov newBuf =
        .error .nullDeref := by
    intro hcv
    unfold alloc_and_assign_iovec
    rw [if_neg (by simpa using hcv), hcv, h0]
  refine ⟨hcore, ?_, ?_, ?_, ?_⟩
  · intro hne
    unfold alloc_and_assign_iovec
    rw [if_pos hne]
  · intro r
    by_cases hcv : cmd.iovec = 0
    · rw [hcore hcv]; simp
    · unfold alloc_and_assign_iovec
      rw [if_pos hcv]; simp
  · intro st o off bs ha
    have hmem : Action.allocIov (st.orig.iovLen / 2) ∈
        (addTrace st [Action.allocIov (st.orig.iovLen / 2)]).sys.trace :=
      mem_addTrace st (by simp)
    unfold call_store_caw nextAlloc
    rw [ha]
    dsimp only
    split
    · simp at *
    · split
      · exact ((traceExt_dispatchM _ _ _).trans
          (TraceExt.refl _)).mem hmem
      · refine ((traceExt_dispatchM _ _ _).trans
          ((traceExt_finishM _ _ _).trans (traceExt_caw_free _))).mem hmem
  · intro st o off len cnt bs ha
    have hmem : Action.allocIov len ∈
        (addTrace st [Action.allocIov len]).sys.trace :=
      mem_addTrace st (by simp)
    unfold write_verify_do_read nextAlloc
    rw [ha]
    dsimp only
    split
    · simp at *
    · split
      · exact (traceExt_dispatchM _ _ _).mem hmem
      · exact ((traceExt_dispatchM _ _ _).trans (traceExt_addTrace _ _)).mem hmem

theorem C10_alloc_and_assign_witness :
    alloc_and_assign_iovec exHeap { iovec := 0, iov_cnt := 0 } 512 1 3 4 =
      .error .nullDeref := by
  exact (C10_alloc_and_assign exHeap { iovec := 0, iov_cnt := 0 } 512 1 3 4
    rfl).1 rfl

/-! ## Claim C1 — the CAW read-completion step -/

/-- C1 evaluated at concrete inputs: with a successful READ and *equal*
buffers (`tcmu_compare_with_iovec` returned the sentinel `-1`), the CAW
read completion finalizes the original command with MISCOMPARE /
MISCOMPARE_DURING_VERIFY_OPERATION sense (information field `-1`) and
dispatches no WRITE; with buffers *differing* at offset 37 it dispatches
the WRITE stub (iov_cnt of the original command, residual length 512 at
the original offset) and sets no sense — the source's
`cmp_offset == -1` test inverts the direction the claim (and the
sibling write-verify callback) states. -/
theorem C1_caw_read_cbk_inverted :
    (call_store_caw_read_cbk exCawSt
        { dispatches := [.workq 512], compares := [-1], allocs := [] }
        .good).st.sys.trace =
      [Action.freeIov,
       Action.commandComplete (.checkCondition
         { key := 14, asc := 7424, info := -1 }),
       Action.processingComplete]
  ∧ (call_store_caw_read_cbk exCawSt
        { dispatches := [.workq 512], compares := [-1], allocs := [] }
        .good).st.orig.sense =
      some { key := 14, asc := 7424, info := -1 }
  ∧ (call_store_caw_read_cbk exCawSt
        { dispatches := [.workq 512], compares := [-1], allocs := [] }
        .good).p = .idle
  ∧ (call_store_caw_read_cbk exCawSt
        { dispatches := [.workq 512], compares := [37], allocs := [] }
        .good).st.sys.trace =
      [Action.enqueued
        { sop := .write, callout_cbk := .storeWriteCbk,
          rwLen := 512, rwCnt := 2, rwOff := 0 },
       Action.freeIov]
  ∧ (call_store_caw_read_cbk exCawSt
        { dispatches := [.workq 512], compares := [37], allocs := [] }
        .good).st.orig.sense = none
  ∧ (call_store_caw_read_cbk exCawSt
        { dispatches := [.workq 512], compares := [37], allocs := [] }
        .good).st.orig.iovLen = 512 := by decide

/-! ## Claim C7 — the write-verify loop step -/

theorem nextCompare_dispatches (o : Oracle) :
    (nextCompare o).2.dispatches = o.dispatches := by
  unfold nextCompare
  cases o.compares <;> rfl

theorem nextCompare_allocs (o : Oracle) :
    (nextCompare o).2.allocs = o.allocs := by
  unfold nextCompare
  cases o.compares <;> rfl

/-- C7: in `call_store_write_verify_read_cbk`, after a successful
read-back whose compare matches (`tcmu_compare_with_iovec` returned the
sentinel `-1`), `remaining` is updated to `remaining - requested`
(`size_t` arithmetic): if it reaches zero the original command is
finalized with GOOD (and the read command's iovec freed); otherwise the
original command's iovec cursor is advanced by `requested` bytes, the
sidecar read command's iovec is freed, and another WRITE stub is
dispatched over the residual iovec at the state's offset, whose
completion (`call_store_write_verify_write_cbk`) recomputes `requested`
as the then-current iovec residual length. -/
theorem C7_write_verify_step (st : MSt) (o : Oracle) (w : WvState)
    (hw : st.wv = some w) (hc : (nextCompare o).1 = -1) :
    (sub64 w.remaining w.requested = 0 →
      (call_store_write_verify_read_cbk st o .good).p = .idle ∧
      (call_store_write_verify_read_cbk st o .good).st.wv = none ∧
      (call_store_write_verify_read_cbk st o .good).st.rcIov = none ∧
      (call_store_write_verify_read_cbk st o .good).st.sys.trace =
        st.sys.trace ++
          (Action.commandComplete .good ::
            (if st.sys.tracker - 1 = 0 then [Action.processingComplete] else [])) ++
          [Action.freeIov])
  ∧ (∀ (bv : Int) (ds : List DOutcome),
      ¬ sub64 w.remaining w.requested = 0 →
      o.dispatches = DOutcome.workq bv :: ds →
      (call_store_write_verify_read_cbk st o .good).st.orig.iovLen =
        st.orig.iovLen - w.requested ∧
      (call_store_write_verify_read_cbk st o .good).st.rcIov = none ∧
      (call_store_write_verify_read_cbk st o .good).st.wv =
        some { off := w.off, remaining := sub64 w.remaining w.requested,
               requested := w.requested } ∧
      Action.enqueued
        { sop := .write, callout_cbk := .wvWriteCbk,
          rwLen := st.orig.iovLen - w.requested, rwCnt := st.orig.iov_cnt,
          rwOff := w.off } ∈
        (call_store_write_verify_read_cbk st o .good).st.sys.trace ∧
      (call_store_write_verify_read_cbk st o .good).p =
        .cbk .wvWriteCbk
          (sync_status
            { sop := .write, callout_cbk := .wvWriteCbk,
              rwLen := st.orig.iovLen - w.requested,
              rwCnt := st.orig.iov_cnt, rwOff := w.off } bv))
  ∧ (∀ (st2 : MSt) (o2 : Oracle) (w2 : WvState) (b2 : Int)
        (bs2 : List Bool) (ds2 : List DOutcome),
      st2.wv = some w2 → o2.allocs = true :: bs2 →
      o2.dispatches = DOutcome.workq b2 :: ds2 →
      (call_store_write_verify_write_cbk st2 o2 .good).st.wv =
        some { off := w2.off, remaining := w2.remaining,
               requested := st2.orig.iovLen }) := by
  refine ⟨?_, ?_, ?_⟩
  · intro h0
    unfold call_store_write_verify_read_cbk
    rw [hw]
    simp [hc, h0, wv_read_finish, finishM, tcmu_command_finish, addTrace]
  · intro bv ds h0 hd
    unfold call_store_write_verify_read_cbk
    rw [hw]
    simp only [hc, h0]
    dsimp only [write_verify_do_write]
    have hd2 : (nextCompare o).2.dispatches = DOutcome.workq bv :: ds := by
      rw [nextCompare_dispatches, hd]
    dsimp only [dispatchM]
    rw [hd2]
    simp [h0, seekIovec, addTrace, sync_status]
  · intro st2 o2 w2 b2 bs2 ds2 hw2 ha2 hd2
    unfold call_store_write_verify_write_cbk
    rw [hw2]
    dsimp only [write_verify_do_read, nextAlloc]
    rw [ha2]
    dsimp only [dispatchM]
    rw [hd2]
    simp [addTrace]

theorem C7_write_verify_step_witness :
    (call_store_write_verify_read_cbk exWvSt
        { dispatches := [], compares := [-1], allocs := [] } .good).p =
      Pending.idle := by
  exact ((C7_write_verify_step exWvSt
    { dispatches := [], compares := [-1], allocs := [] }
    { off := 8192, remaining := 1024, requested := 1024 }
    rfl (by decide)).1 (by decide)).1

/-! ## Claim C8 — passthrough and the NOT_HANDLED fallback -/

theorem traceExt_call_store_read (st : MSt) (o : Oracle) (off : Int) :
    TraceExt st (call_store_read st o off).st := by
  unfold call_store_read
  dsimp only
  split
  · exact (traceExt_startM st).trans (traceExt_dispatchM _ _ _)
  · exact ((traceExt_startM st).trans (traceExt_dispatchM _ _ _)).trans
      (traceExt_finishM _ _ _)

theorem traceExt_call_store_write (st : MSt) (o : Oracle) (off : Int) :
    TraceExt st (call_store_write st o off).st := by
  unfold call_store_write
  dsimp only
  split
  · exact (traceExt_startM st).trans (traceExt_dispatchM _ _ _)
  · exact ((traceExt_startM st).trans (traceExt_dispatchM _ _ _)).trans
      (traceExt_finishM _ _ _)

theorem traceExt_call_store_flush (st : MSt) (o : Oracle) :
    TraceExt st (call_store_flush st o).st := by
  unfold call_store_flush
  dsimp only
  split
  · exact (traceExt_startM st).trans (traceExt_dispatchM _ _ _)
  · exact ((traceExt_startM st).trans (traceExt_dispatchM _ _ _)).trans
      (traceExt_finishM _ _ _)

theorem traceExt_call_store_caw (st : MSt) (o : Oracle) (off : Int) :
    TraceExt st (call_store_caw st o off).st := by
  unfold call_store_caw
  dsimp only
  split
  · exact TraceExt.refl st
  · split
    · refine (((traceExt_addTrace st
          [Action.allocIov (st.orig.iovLen / 2)]).cast _ ?_).trans
        (traceExt_startM _)).trans (traceExt_dispatchM _ _ _)
      rfl
    · refine ((((traceExt_addTrace st
          [Action.allocIov (st.orig.iovLen / 2)]).cast _ ?_).trans
        (traceExt_startM _)).trans (traceExt_dispatchM _ _ _)).trans
        ((traceExt_finishM _ _ _).trans (traceExt_caw_free _))
      rfl

theorem traceExt_dispatch_from (st t : MSt) (stub : CallStub) (o : Oracle)
    (u : MSt) (eu : u.sys.trace = (dispatchM t stub o).st.sys.trace)
    (e : t.sys.trace = st.sys.trace) : TraceExt st u :=
  (TraceExt.trans
    (TraceExt.trans ⟨[], by rw [e, List.append_nil]⟩
      (traceExt_dispatchM t stub o))
    (TraceExt.refl (dispatchM t stub o).st)).cast u eu

theorem traceExt_dispatch_finish_from (st t : MSt) (stub : CallStub) (o : Oracle)
    (rc : SamStat) (c : Bool) (u : MSt)
    (eu : u.sys.trace = (finishM (dispatchM t stub o).st rc c).sys.trace)
    (e : t.sys.trace = st.sys.trace) : TraceExt st u :=
  (TraceExt.trans
    (TraceExt.trans ⟨[], by rw [e, List.append_nil]⟩
      (traceExt_dispatchM t stub o))
    (traceExt_finishM (dispatchM t stub o).st rc c)).cast u eu

theorem traceExt_call_store_write_verify (st : MSt) (o : Oracle) (off : Int)
    (length : Nat) : TraceExt st (call_store_write_verify st o off length).st := by
  unfold call_store_write_verify write_verify_do_write
  dsimp only
  split
  · exact TraceExt.refl st
  · split
    · exact traceExt_dispatch_from st _ _ _ _ rfl rfl
    · exact traceExt_dispatch_finish_from st _ _ _ _ _ _ rfl rfl

theorem traceExt_call_store_handler (st : MSt) (o : Oracle) (opc : Opcode)
    (off : Int) (xlen : Nat) :
    TraceExt st (call_store_handler st o opc off xlen).st := by
  unfold call_store_handler
  cases opc
  case read6 => exact (traceExt_addTrace st _).trans (traceExt_call_store_read _ _ _)
  case read10 => exact (traceExt_addTrace st _).trans (traceExt_call_store_read _ _ _)
  case read12 => exact (traceExt_addTrace st _).trans (traceExt_call_store_read _ _ _)
  case read16 => exact (traceExt_addTrace st _).trans (traceExt_call_store_read _ _ _)
  case write6 => exact (traceExt_addTrace st _).trans (traceExt_call_store_write _ _ _)
  case write10 => exact (traceExt_addTrace st _).trans (traceExt_call_store_write _ _ _)
  case write12 => exact (traceExt_addTrace st _).trans (traceExt_call_store_write _ _ _)
  case write16 => exact (traceExt_addTrace st _).trans (traceExt_call_store_write _ _ _)
  case syncCache => exact (traceExt_addTrace st _).trans (traceExt_call_store_flush _ _)
  case syncCache16 => exact (traceExt_addTrace st _).trans (traceExt_call_store_flush _ _)
  case compareAndWrite => exact (traceExt_addTrace st _).trans (traceExt_call_store_caw _ _ _)
  case writeVerify => exact (traceExt_addTrace st _).trans (traceExt_call_store_write_verify _ _ _ _)
  case unknown => exact traceExt_addTrace st _

theorem mem_storeHandlerCalled (st : MSt) (o : Oracle) (opc : Opcode)
    (off : Int) (xlen : Nat) :
    Action.storeHandlerCalled ∈
      (call_store_handler st o opc off xlen).st.sys.trace := by
  have h : Action.storeHandlerCalled ∈
      (addTrace st [Action.storeHandlerCalled]).sys.trace :=
    mem_addTrace st (by simp)
  unfold call_store_handler
  cases opc
  case read6 => exact (traceExt_call_store_read _ _ _).mem h
  case read10 => exact (traceExt_call_store_read _ _ _).mem h
  case read12 => exact (traceExt_call_store_read _ _ _).mem h
  case read16 => exact (traceExt_call_store_read _ _ _).mem h
  case write6 => exact (traceExt_call_store_write _ _ _).mem h
  case write10 => exact (traceExt_call_store_write _ _ _).mem h
  case write12 => exact (traceExt_call_store_write _ _ _).mem h
  case write16 => exact (traceExt_call_store_write _ _ _).mem h
  case syncCache => exact (traceExt_call_store_flush _ _).mem h
  case syncCache16 => exact (traceExt_call_store_flush _ _).mem h
  case compareAndWrite => exact (traceExt_call_store_caw _ _ _).mem h
  case writeVerify => exact (traceExt_call_store_write_verify _ _ _ _).mem h
  case unknown => exact h

/-- C8: when the backend exports `handle_cmd` the router dispatches the
HANDLE_CMD stub first (worker path: the stub is enqueued; native-async
path: the backend entry runs — in both cases before anything else), and
whenever the HANDLE_CMD step delivers `TCMU_NOT_HANDLED` — to the
completion callback (however the stub was executed) or to the dispatch
caller — the per-opcode machine (`call_store_handler`) is invoked as the
fallback. -/
theorem C8_passthrough_fallback (st : MSt) (o : Oracle) (opc : Opcode)
    (off : Int) (xlen : Nat) :
    (∀ s : SamStat, s = .notHandled →
      Action.storeHandlerCalled ∈
        (tcmu_call_command_passthrough_cbk st o s opc off xlen).st.sys.trace)
  ∧ ((tcmu_command_passthrough st o).ret = .notHandled →
      Action.storeHandlerCalled ∈
        (call_store st o true opc off xlen).st.sys.trace)
  ∧ (∀ (b : Int) (ds : List DOutcome), o.dispatches = DOutcome.workq b :: ds →
      ∃ tl, (call_store st o true opc off xlen).st.sys.trace =
        st.sys.trace ++
          Action.enqueued
            { sop := .handleCmd, callout_cbk := .passthroughCbk,
              rwLen := 0, rwCnt := 0, rwOff := 0 } :: tl)
  ∧ (∀ (r c : SamStat) (ds : List DOutcome),
      o.dispatches = DOutcome.direct r c :: ds →
      ∃ tl, (call_store st o true opc off xlen).st.sys.trace =
        st.sys.trace ++ Action.execBackend .handleCmd 0 0 :: tl) := by
  refine ⟨?_, ?_, ?_, ?_⟩
  · intro s hs
    subst hs
    unfold tcmu_call_command_passthrough_cbk
    dsimp only
    rw [if_neg (by simp)]
    exact (traceExt_finishM _ _ _).mem (mem_storeHandlerCalled _ _ _ _ _)
  · intro hr
    unfold call_store
    dsimp only
    rw [if_pos rfl]
    split
    · rename_i hcond
      rcases hcond with h | h
      · rw [hr] at h
        exact absurd h (by decide)
      · exact absurd hr h
    · exact mem_storeHandlerCalled _ _ _ _ _
  · intro b ds hd
    unfold call_store tcmu_command_passthrough
    dsimp only [dispatchM]
    rw [hd]
    dsimp only
    rw [if_pos rfl]
    refine ⟨[], ?_⟩
    simp [addTrace, startM, tcmu_command_start]
  · intro r c ds hd
    unfold call_store tcmu_command_passthrough
    dsimp only [dispatchM]
    rw [hd]
    dsimp only
    rw [if_pos rfl]
    by_cases hra : r = SamStat.asyncHandled
    · rw [if_pos hra, if_pos (Or.inl hra)]
      refine ⟨[], ?_⟩
      simp [addTrace, startM, tcmu_command_start]
    · rw [if_neg hra]
      by_cases hrn : r = SamStat.notHandled
      · rw [if_neg (by simp [hra, hrn])]
        have hext :=
          (traceExt_finishM
            (addTrace (startM st) [Action.execBackend .handleCmd 0 0])
            r false).trans
          (traceExt_call_store_handler
            (finishM
              (addTrace (startM st) [Action.execBackend .handleCmd 0 0])
              r false)
            { o with dispatches := ds } opc off xlen)
        obtain ⟨tl, e⟩ := hext
        refine ⟨tl, ?_⟩
        rw [e]
        simp [addTrace, startM, tcmu_command_start]
      · rw [if_pos (Or.inr hrn)]
        obtain ⟨tl, e⟩ := traceExt_finishM
          (addTrace (startM st) [Action.execBackend .handleCmd 0 0]) r false
        refine ⟨tl, ?_⟩
        rw [e]
        simp [addTrace, startM, tcmu_command_start]

theorem C8_passthrough_fallback_witness :
    Action.storeHandlerCalled ∈
      (tcmu_call_command_passthrough_cbk exSt
          { dispatches := [.workq 1024], compares := [], allocs := [] }
          .notHandled .read10 0 0).st.sys.trace := by
  exact (C8_passthrough_fallback exSt
    { dispatches := [.workq 1024], compares := [], allocs := [] }
    .read10 0 0).1 .notHandled rfl

/-! ## Claim C2 — exactly-once completion

Every function of the store layer preserves an accounting invariant: a
status-returning function neither completes the command nor loses the
obligation (its pending continuation owes a completion exactly when it
returned `ASYNC_HANDLED`), and a completion callback discharges exactly
one completion obligation (completions performed plus completions still
owed by its pending continuation equal one). -/

theorem count_addTrace (st : MSt) (l : List Action) :
    completeCount (addTrace st l).sys.trace =
      completeCount st.sys.trace + completeCount l :=
  completeCount_append _ _

theorem count_finishM (st : MSt) (rc : SamStat) (c : Bool) :
    completeCount (finishM st rc c).sys.trace =
      completeCount st.sys.trace + (if c then 1 else 0) :=
  completeCount_finish st.sys rc c

theorem count_dispatchM (st : MSt) (stub : CallStub) (o : Oracle) :
    completeCount (dispatchM st stub o).st.sys.trace =
      completeCount st.sys.trace := by
  unfold dispatchM
  cases hd : o.dispatches with
  | nil => rfl
  | cons d rest =>
      cases d with
      | direct r c =>
          dsimp only
          rw [count_addTrace]
          simp [completeCount, List.countP_cons, List.countP_nil]
      | oom => rfl
      | workq b =>
          dsimp only
          rw [count_addTrace]
          simp [completeCount, List.countP_cons, List.countP_nil]

theorem owed_dispatchM (st : MSt) (stub : CallStub) (o : Oracle) :
    (dispatchM st stub o).p.owed =
      (if (dispatchM st stub o).ret = .asyncHandled then 1 else 0) := by
  unfold dispatchM
  cases hd : o.dispatches with
  | nil => simp [errno_to_sam_status, ENOMEM, Pending.owed]
  | cons d rest =>
      cases d with
      | direct r c =>
          dsimp only
          by_cases hr : r = SamStat.asyncHandled <;> simp [hr, Pending.owed]
      | oom => simp [errno_to_sam_status, ENOMEM, Pending.owed]
      | workq b => simp [Pending.owed]

theorem inv1_call_store_read (st : MSt) (o : Oracle) (off : Int) :
    completeCount (call_store_read st o off).st.sys.trace =
      completeCount st.sys.trace
  ∧ (call_store_read st o off).p.owed =
      (if (call_store_read st o off).ret = .asyncHandled then 1 else 0) := by
  unfold call_store_read
  dsimp only
  split
  · rename_i hr
    refine ⟨(count_dispatchM _ _ _).trans rfl, ?_⟩
    rw [owed_dispatchM, hr, if_pos rfl]
  · rename_i hr
    constructor
    · rw [count_finishM, count_dispatchM]
      simp [startM, tcmu_command_start]
    · rw [owed_dispatchM]
      simp [hr]

theorem inv1_call_store_write (st : MSt) (o : Oracle) (off : Int) :
    completeCount (call_store_write st o off).st.sys.trace =
      completeCount st.sys.trace
  ∧ (call_store_write st o off).p.owed =
      (if (call_store_write st o off).ret = .asyncHandled then 1 else 0) := by
  unfold call_store_write
  dsimp only
  split
  · rename_i hr
    refine ⟨(count_dispatchM _ _ _).trans rfl, ?_⟩
    rw [owed_dispatchM, hr, if_pos rfl]
  · rename_i hr
    constructor
    · rw [count_finishM, count_dispatchM]
      simp [startM, tcmu_command_start]
    · rw [owed_dispatchM]
      simp [hr]

theorem inv1_call_store_flush (st : MSt) (o : Oracle) :
    completeCount (call_store_flush st o).st.sys.trace =
      completeCount st.sys.trace
  ∧ (call_store_flush st o).p.owed =
      (if (call_store_flush st o).ret = .asyncHandled then 1 else 0) := by
  unfold call_store_flush
  dsimp only
  split
  · rename_i hr
    refine ⟨(count_dispatchM _ _ _).trans rfl, ?_⟩
    rw [owed_dispatchM, hr, if_pos rfl]
  · rename_i hr
    constructor
    · rw [count_finishM, count_dispatchM]
      simp [startM, tcmu_command_start]
    · rw [owed_dispatchM]
      simp [hr]

theorem count_caw_free (st : MSt) :
    completeCount (caw_free_readcmd st).sys.trace =
      completeCount st.sys.trace := by
  show completeCount (addTrace st _).sys.trace = _
  rw [count_addTrace]
  simp [completeCount, List.countP_cons, List.countP_nil]

theorem inv1_call_store_caw (st : MSt) (o : Oracle) (off : Int) :
    completeCount (call_store_caw st o off).st.sys.trace =
      completeCount st.sys.trace
  ∧ (call_store_caw st o off).p.owed =
      (if (call_store_caw st o off).ret = .asyncHandled then 1 else 0) := by
  unfold call_store_caw
  dsimp only
  split
  · refine ⟨rfl, ?_⟩
    simp [errno_to_sam_status, ENOMEM, Pending.owed]
  · split
    · rename_i hr
      constructor
      · rw [count_dispatchM]
        show completeCount (addTrace st _).sys.trace = _
        rw [count_addTrace]
        simp [completeCount, List.countP_cons, List.countP_nil]
      · rw [owed_dispatchM, hr, if_pos rfl]
    · rename_i hr
      constructor
      · rw [count_caw_free, count_finishM, count_dispatchM]
        show completeCount (addTrace st _).sys.trace + _ = _
        rw [count_addTrace]
        simp [completeCount, List.countP_cons, List.countP_nil]
      · rw [owed_dispatchM]
        simp [hr]

theorem inv1_write_verify_do_write (st : MSt) (o : Oracle) (len cnt : Nat)
    (off : Int) :
    completeCount (write_verify_do_write st o len cnt off).st.sys.trace =
      completeCount st.sys.trace
  ∧ (write_verify_do_write st o len cnt off).p.owed =
      (if (write_verify_do_write st o len cnt off).ret = .asyncHandled
       then 1 else 0) :=
  ⟨count_dispatchM _ _ _, owed_dispatchM _ _ _⟩

theorem inv1_write_verify_do_read (st : MSt) (o : Oracle) (off : Int)
    (length cnt : Nat) :
    completeCount (write_verify_do_read st o off length cnt).st.sys.trace =
      completeCount st.sys.trace
  ∧ (write_verify_do_read st o off length cnt).p.owed =
      (if (write_verify_do_read st o off length cnt).ret = .asyncHandled
       then 1 else 0) := by
  unfold write_verify_do_read
  dsimp only
  split
  · refine ⟨rfl, ?_⟩
    simp [errno_to_sam_status, ENOMEM, Pending.owed]
  · split
    · rename_i hr
      constructor
      · rw [count_dispatchM]
        show completeCount (addTrace st _).sys.trace = _
        rw [count_addTrace]
        simp [completeCount, List.countP_cons, List.countP_nil]
      · rw [owed_dispatchM, hr, if_pos rfl]
    · rename_i hr
      constructor
      · show completeCount (addTrace _ _).sys.trace = _
        rw [count_addTrace, count_dispatchM]
        show completeCount (addTrace st _).sys.trace + _ = _
        rw [count_addTrace]
        simp [completeCount, List.countP_cons, List.countP_nil]
      · rw [owed_dispatchM]
        simp [hr]

theorem inv1_call_store_write_verify (st : MSt) (o : Oracle) (off : Int)
    (length : Nat) :
    completeCount (call_store_write_verify st o off length).st.sys.trace =
      completeCount st.sys.trace
  ∧ (call_store_write_verify st o off length).p.owed =
      (if (call_store_write_verify st o off length).ret = .asyncHandled
       then 1 else 0) := by
  unfold call_store_write_verify write_verify_do_write
  dsimp only
  split
  · refine ⟨rfl, ?_⟩
    simp [errno_to_sam_status, ENOMEM, Pending.owed]
  · split
    · rename_i hr
      refine ⟨(count_dispatchM _ _ _).trans rfl, ?_⟩
      rw [owed_dispatchM, hr, if_pos rfl]
    · rename_i hr
      constructor
      · show completeCount (finishM _ _ _).sys.trace = _
        rw [count_finishM, count_dispatchM]
        simp [startM, tcmu_command_start]
      · rw [owed_dispatchM]
        simp [hr]

theorem inv1_call_store_handler (st : MSt) (o : Oracle) (opc : Opcode)
    (off : Int) (xlen : Nat) :
    completeCount (call_store_handler st o opc off xlen).st.sys.trace =
      completeCount st.sys.trace
  ∧ (call_store_handler st o opc off xlen).p.owed =
      (if (call_store_handler st o opc off xlen).ret = .asyncHandled
       then 1 else 0) := by
  have hadd : completeCount (addTrace st [Action.storeHandlerCalled]).sys.trace =
      completeCount st.sys.trace := by
    rw [count_addTrace]
    simp [completeCount, List.countP_cons, List.countP_nil]
  unfold call_store_handler
  cases opc
  case read6 => exact ⟨((inv1_call_store_read _ _ _).1).trans hadd,
    (inv1_call_store_read _ _ _).2⟩
  case read10 => exact ⟨((inv1_call_store_read _ _ _).1).trans hadd,
    (inv1_call_store_read _ _ _).2⟩
  case read12 => exact ⟨((inv1_call_store_read _ _ _).1).trans hadd,
    (inv1_call_store_read _ _ _).2⟩
  case read16 => exact ⟨((inv1_call_store_read _ _ _).1).trans hadd,
    (inv1_call_store_read _ _ _).2⟩
  case write6 => exact ⟨((inv1_call_store_write _ _ _).1).trans hadd,
    (inv1_call_store_write _ _ _).2⟩
  case write10 => exact ⟨((inv1_call_store_write _ _ _).1).trans hadd,
    (inv1_call_store_write _ _ _).2⟩
  case write12 => exact ⟨((inv1_call_store_write _ _ _).1).trans hadd,
    (inv1_call_store_write _ _ _).2⟩
  case write16 => exact ⟨((inv1_call_store_write _ _ _).1).trans hadd,
    (inv1_call_store_write _ _ _).2⟩
  case syncCache => exact ⟨((inv1_call_store_flush _ _).1).trans hadd,
    (inv1_call_store_flush _ _).2⟩
  case syncCache16 => exact ⟨((inv1_call_store_flush _ _).1).trans hadd,
    (inv1_call_store_flush _ _).2⟩
  case compareAndWrite => exact ⟨((inv1_call_store_caw _ _ _).1).trans hadd,
    (inv1_call_store_caw _ _ _).2⟩
  case writeVerify =>
    exact ⟨((inv1_call_store_write_verify _ _ _ _).1).trans hadd,
      (inv1_call_store_write_verify _ _ _ _).2⟩
  case unknown => exact ⟨hadd, by simp [Pending.owed]⟩

theorem inv1_tcmu_command_passthrough (st : MSt) (o : Oracle) :
    completeCount (tcmu_command_passthrough st o).st.sys.trace =
      completeCount st.sys.trace
  ∧ (tcmu_command_passthrough st o).p.owed =
      (if (tcmu_command_passthrough st o).ret = .asyncHandled then 1 else 0) := by
  unfold tcmu_command_passthrough
  dsimp only
  split
  · rename_i hr
    refine ⟨(count_dispatchM _ _ _).trans rfl, ?_⟩
    rw [owed_dispatchM, hr, if_pos rfl]
  · rename_i hr
    constructor
    · rw [count_finishM, count_dispatchM]
      simp [startM, tcmu_command_start]
    · rw [owed_dispatchM]
      simp [hr]

theorem inv1_call_store (st : MSt) (o : Oracle) (hc : Bool) (opc : Opcode)
    (off : Int) (xlen : Nat) :
    completeCount (call_store st o hc opc off xlen).st.sys.trace =
      completeCount st.sys.trace
  ∧ (call_store st o hc opc off xlen).p.owed =
      (if (call_store st o hc opc off xlen).ret = .asyncHandled
       then 1 else 0) := by
  unfold call_store
  cases hc
  · rw [if_neg (by simp)]
    exact inv1_call_store_handler st o opc off xlen
  · rw [if_pos rfl]
    dsimp only
    by_cases hcnd : (tcmu_command_passthrough st o).ret = SamStat.asyncHandled ∨
        ¬ (tcmu_command_passthrough st o).ret = SamStat.notHandled
    · rw [if_pos hcnd]
      exact inv1_tcmu_command_passthrough st o
    · rw [if_neg hcnd]
      exact ⟨((inv1_call_store_handler _ _ _ _ _).1).trans
        (inv1_tcmu_command_passthrough st o).1,
        (inv1_call_store_handler _ _ _ _ _).2⟩

theorem inv2_call_store_single_cbk (st : MSt) (o : Oracle) (s : SamStat) :
    completeCount (call_store_single_cbk st o s).st.sys.trace +
        (call_store_single_cbk st o s).p.owed =
      completeCount st.sys.trace + 1 := by
  unfold call_store_single_cbk
  dsimp only
  rw [count_finishM]
  simp [Pending.owed]

theorem count_caw_finish_err (st : MSt) (o : Oracle) (rc : SamStat) :
    completeCount (caw_finish_err st o rc).st.sys.trace =
      completeCount st.sys.trace + 1 := by
  unfold caw_finish_err
  dsimp only
  rw [count_finishM, count_caw_free]
  simp

theorem inv2_caw_read_cbk (st : MSt) (o : Oracle) (s : SamStat) :
    completeCount (call_store_caw_read_cbk st o s).st.sys.trace +
        (call_store_caw_read_cbk st o s).p.owed =
      completeCount st.sys.trace + 1 := by
  unfold call_store_caw_read_cbk
  dsimp only
  split
  · rw [count_caw_finish_err]
    simp [caw_finish_err, Pending.owed]
  · split
    · rw [count_caw_finish_err]
      simp [caw_finish_err, Pending.owed]
    · split
      · rename_i hr
        rw [count_caw_finish_err]
        simp [caw_finish_err, Pending.owed, count_dispatchM]
      · rename_i hr
        rw [count_caw_free, count_dispatchM]
        rw [owed_dispatchM]
        simp at hr
        simp [hr]

theorem count_wv_read_finish (st : MSt) (o : Oracle) (rc : SamStat) :
    completeCount (wv_read_finish st o rc).st.sys.trace =
      completeCount st.sys.trace + 1 := by
  unfold wv_read_finish
  dsimp only
  show completeCount (addTrace _ _).sys.trace = _
  rw [count_addTrace, count_finishM]
  simp [completeCount, List.countP_cons, List.countP_nil]

theorem inv2_wv_read_cbk (st : MSt) (o : Oracle) (s : SamStat) :
    completeCount (call_store_write_verify_read_cbk st o s).st.sys.trace +
        (call_store_write_verify_read_cbk st o s).p.owed =
      completeCount st.sys.trace + 1 := by
  unfold call_store_write_verify_read_cbk
  dsimp only
  split
  · rw [count_wv_read_finish]
    simp [wv_read_finish, Pending.owed]
  · split
    · rw [count_wv_read_finish]
      simp [wv_read_finish, Pending.owed]
    · split
      · rw [count_wv_read_finish]
        simp [wv_read_finish, Pending.owed]
      · split
        · rename_i hr
          rw [count_wv_read_finish]
          simp [wv_read_finish, Pending.owed,
            (inv1_write_verify_do_write _ _ _ _ _).1]
        · rename_i hr
          show completeCount (addTrace _ _).sys.trace + _ = _
          rw [count_addTrace, (inv1_write_verify_do_write _ _ _ _ _).1,
            (inv1_write_verify_do_write _ _ _ _ _).2]
          simp at hr
          simp [hr, completeCount, List.countP_cons, List.countP_nil]

theorem count_wv_write_finish_err (st : MSt) (o : Oracle) (rc : SamStat) :
    completeCount (wv_write_finish_err st o rc).st.sys.trace =
      completeCount st.sys.trace + 1 := by
  unfold wv_write_finish_err
  dsimp only
  show completeCount (finishM _ _ _).sys.trace = _
  rw [count_finishM]
  rfl

theorem inv2_wv_write_cbk (st : MSt) (o : Oracle) (s : SamStat) :
    completeCount (call_store_write_verify_write_cbk st o s).st.sys.trace +
        (call_store_write_verify_write_cbk st o s).p.owed =
      completeCount st.sys.trace + 1 := by
  unfold call_store_write_verify_write_cbk
  dsimp only
  split
  · rw [count_wv_write_finish_err]
    simp [wv_write_finish_err, Pending.owed]
  · split
    · rename_i hr
      rw [count_wv_write_finish_err]
      simp [wv_write_finish_err, Pending.owed,
        (inv1_write_verify_do_read _ _ _ _ _).1]
    · rename_i hr
      rw [(inv1_write_verify_do_read _ _ _ _ _).1,
        (inv1_write_verify_do_read _ _ _ _ _).2]
      simp at hr
      simp [hr]

theorem inv2_passthrough_cbk (st : MSt) (o : Oracle) (s : SamStat)
    (opc : Opcode) (off : Int) (xlen : Nat) :
    completeCount
        (tcmu_call_command_passthrough_cbk st o s opc off xlen).st.sys.trace +
        (tcmu_call_command_passthrough_cbk st o s opc off xlen).p.owed =
      completeCount st.sys.trace + 1 := by
  unfold tcmu_call_command_passthrough_cbk
  dsimp only
  split
  · rw [count_finishM]
    simp [Pending.owed]
  · rw [count_finishM, (inv1_call_store_handler _ _ _ _ _).1,
      (inv1_call_store_handler _ _ _ _ _).2]
    split <;> rename_i hr <;> simp [hr]

theorem inv2_runCallout (c : CbkId) (s : SamStat) (st : MSt) (o : Oracle)
    (opc : Opcode) (off : Int) (xlen : Nat) :
    completeCount (runCallout c s st o opc off xlen).st.sys.trace +
        (runCallout c s st o opc off xlen).p.owed =
      completeCount st.sys.trace + 1 := by
  unfold runCallout
  cases c
  case storeReadCbk => exact inv2_call_store_single_cbk st o s
  case storeWriteCbk => exact inv2_call_store_single_cbk st o s
  case storeFlushCbk => exact inv2_call_store_single_cbk st o s
  case cawReadCbk => exact inv2_caw_read_cbk st o s
  case wvReadCbk => exact inv2_wv_read_cbk st o s
  case wvWriteCbk => exact inv2_wv_write_cbk st o s
  case passthroughCbk => exact inv2_passthrough_cbk st o s opc off xlen

theorem drive_count (opc : Opcode) (off : Int) (xlen : Nat) :
    ∀ (fuel : Nat) (st : MSt) (o : Oracle) (p : Pending) (st' : MSt)
      (o' : Oracle), drive opc off xlen fuel st o p = some (st', o') →
      completeCount st'.sys.trace = completeCount st.sys.trace + p.owed := by
  intro fuel
  induction fuel with
  | zero =>
      intro st o p st' o' h
      cases p with
      | idle =>
          unfold drive at h
          obtain ⟨h1, h2⟩ := Prod.mk.injEq .. ▸ Option.some.inj h
          subst h1
          simp [Pending.owed]
      | cbk c s => exact absurd h (by unfold drive; simp)
  | succ n ih =>
      intro st o p st' o' h
      cases p with
      | idle =>
          unfold drive at h
          obtain ⟨h1, h2⟩ := Prod.mk.injEq .. ▸ Option.some.inj h
          subst h1
          simp [Pending.owed]
      | cbk c s =>
          unfold drive at h
          have h2 := ih _ _ _ _ _ h
          have h3 := inv2_runCallout c s st o opc off xlen
          have h4 : (Pending.cbk c s).owed = 1 := rfl
          omega

/-- C2: one accepted command, end to end, completes exactly once.  Over
every terminating run of `call_store` and its out-of-band completions,
the number of `command_complete` invocations made by the core is one
when the status returned to the transport is `ASYNC_HANDLED`, and zero
otherwise — in which case the transport itself completes the command
synchronously with the returned status, per the dispatcher contract —
so the command is completed exactly once in total, regardless of the
backend path, oracle outcomes and machine taken. -/
theorem C2_exactly_once (fuel : Nat) (st : MSt) (o : Oracle) (hc : Bool)
    (opc : Opcode) (off : Int) (xlen : Nat) (st2 : MSt) (o2 : Oracle)
    (ret : SamStat)
    (h : run_call_store fuel st o hc opc off xlen = some (st2, o2, ret)) :
    completeCount st2.sys.trace + (if ret = .asyncHandled then 0 else 1) =
      completeCount st.sys.trace + 1 := by
  unfold run_call_store at h
  dsimp only at h
  revert h
  cases hdr : drive opc off xlen fuel (call_store st o hc opc off xlen).st
      (call_store st o hc opc off xlen).o (call_store st o hc opc off xlen).p with
  | none => intro h; exact absurd h (by simp)
  | some pr =>
      obtain ⟨prs, pro⟩ := pr
      intro h
      rw [Option.some.injEq, Prod.mk.injEq, Prod.mk.injEq] at h
      obtain ⟨hst, ho, hret⟩ := h
      have hd := drive_count opc off xlen fuel _ _ _ prs pro hdr
      have hi := inv1_call_store st o hc opc off xlen
      subst hst
      subst hret
      rw [hd, hi.1, hi.2]
      split <;> rename_i hq <;> simp [hq]

theorem C2_exactly_once_witness :
    completeCount exRunOut.1.sys.trace +
        (if exRunOut.2.2 = SamStat.asyncHandled then 0 else 1) =
      completeCount exSt.sys.trace + 1 := by
  exact C2_exactly_once 3 exSt exO false .read10 0 0 exRunOut.1 exRunOut.2.1
    exRunOut.2.2 (by decide)

end Tcmu
